import Mathlib

/-!
# Verification of the AudioPlayer playback session (src/main.cpp)

Shallow embedding of the playback state machine of the audio player:
the `PlayerState` structure and the control functions
`InitializeAndPlaySound`, `HandlePlayPause`, `HandleNextTrack`,
`HandleVolumeChange`, `TriggerLoadMusicFilesAsync`,
`ProcessAsyncMusicLoadCompletion`, `ProcessAudioEvents`, and the
directory scanner `ScanMusicDirectoryWorker`.

The miniaudio engine is modelled by an oracle `loadOk : String → Bool`
deciding whether `ma_sound_init_from_file` succeeds on a path, and by a
`Sound` record tracking the bound file, the engine-level playing cursor
(`ma_sound_start` / `ma_sound_stop`) and the applied volume.  The file
system seen by the scanner is modelled as a list of directory entries
together with the point at which enumeration may raise.  Volumes are
rationals (the float arithmetic is never branched on by the code).
-/

namespace AudioPlayer

/-! ## Track catalog scanner (`ScanMusicDirectoryWorker`, main.cpp:414-447) -/

/-- One entry yielded by `std::filesystem::directory_iterator`. -/
structure DirEntry where
  path : String
  is_regular_file : Bool
deriving Repr, DecidableEq

/-- ASCII `::tolower` on one character, as applied by `std::transform`. -/
def asciiLowerChar (c : Char) : Char :=
  if 'A' ≤ c ∧ c ≤ 'Z' then Char.ofNat (c.toNat + 32) else c

/-- Lower-case a string character-wise (the `std::transform` call). -/
def asciiLower (s : String) : String :=
  String.mk (s.toList.map asciiLowerChar)

/-- The filename component of a path: everything after the last slash
(`std::filesystem::path::filename`). -/
def pathFilename (p : String) : List Char :=
  (p.toList.reverse.takeWhile (fun c => c ≠ '/')).reverse

/-- `std::filesystem::path::extension`: the suffix of the filename from its
last dot (dot included); empty for `.`, `..`, dotless names and names whose
only dot is the leading one. -/
def pathExtension (p : String) : String :=
  let f := pathFilename p
  if f = ['.'] ∨ f = ['.', '.'] then ""
  else
    let r := f.reverse
    let afterDot := r.takeWhile (fun c => c ≠ '.')
    let fromDot := r.dropWhile (fun c => c ≠ '.')
    if fromDot.length ≤ 1 then "" else String.mk ((afterDot ++ ['.']).reverse)

/-- The enumeration loop body of `ScanMusicDirectoryWorker`
(main.cpp:433-442): keep regular files whose lower-cased extension is
`.mp3` or `.wav`. -/
def scanLoop : List DirEntry → List String
  | [] => []
  | entry :: rest =>
    if entry.is_regular_file then
      let extension := asciiLower (pathExtension entry.path)
      if extension = ".mp3" ∨ extension = ".wav" then
        entry.path :: scanLoop rest
      else
        scanLoop rest
    else
      scanLoop rest

/-- `ScanMusicDirectoryWorker` (main.cpp:414-447).  `dirExists` is the
`std::filesystem::exists` test, `createThrows` whether
`create_directories` raises (that and only that returns early with `[]`;
a `false` return from `create_directories` merely logs).  `listing` is
the sequence the directory iterator would yield and `errAt = some k`
means enumeration raises after the first `k` entries; the `catch` block
swallows the error and the tracks collected so far are returned. -/
def ScanMusicDirectoryWorker (dirExists createThrows : Bool)
    (listing : List DirEntry) (errAt : Option Nat) : List String :=
  if dirExists = false ∧ createThrows = true then []
  else
    let produced := match errAt with
      | none => listing
      | some k => listing.take k
    scanLoop produced

/-- The filter the spec describes: a regular file with case-insensitive
extension `.mp3` or `.wav`. -/
def isPlayableEntry (e : DirEntry) : Bool :=
  e.is_regular_file &&
    decide (asciiLower (pathExtension e.path) = ".mp3" ∨
            asciiLower (pathExtension e.path) = ".wav")

/-! ## Playback session state (struct `PlayerState`, main.cpp:284-304) -/

/-- The live `ma_sound` resource: which file it was initialized from,
whether the engine-level cursor is running (`ma_sound_start` /
`ma_sound_stop`), and the volume applied to it. -/
structure Sound where
  track : String
  enginePlaying : Bool
  volume : Rat
deriving Repr, DecidableEq

/-- The spec's PlaybackStatus enum (§3). -/
inductive PlaybackStatus where
  | Stopped
  | Playing
  | Paused
deriving Repr, DecidableEq

/-- The `PlayerState` struct (main.cpp:284-304).  `sound = some _` stands
for `sound_initialized = true` together with the live `ma_sound`;
`sound = none` for `sound_initialized = false`.  The `ma_engine`,
window flag and the `std::future` handle itself are not modelled; the
future's pending/ready status is the `is_loading_music` flag plus the
`ready` argument of `ProcessAsyncMusicLoadCompletion`. -/
structure PlayerState where
  sound : Option Sound
  track_list : List String
  current_track_index : Int
  is_playing : Bool
  volume : Rat
  is_loading_music : Bool
  was_playing_before_async_load : Bool
  playing_song_before_async_load : String
  track_ended_flag : Bool
deriving Repr, DecidableEq

/-- `sound_initialized` field of the source, derived from the option. -/
def sound_initialized (s : PlayerState) : Bool :=
  s.sound.isSome

/-- The spec's status (§3): `is_playing` is Playing; a bound but not
playing sound is Paused; no bound sound is Stopped. -/
def status (s : PlayerState) : PlaybackStatus :=
  if s.is_playing then PlaybackStatus.Playing
  else if sound_initialized s then PlaybackStatus.Paused
  else PlaybackStatus.Stopped

/-- Default-constructed `PlayerState` (main.cpp:736). -/
def initPlayerState : PlayerState where
  sound := none
  track_list := []
  current_track_index := 0
  is_playing := false
  volume := 1
  is_loading_music := false
  was_playing_before_async_load := false
  playing_song_before_async_load := ""
  track_ended_flag := false

/-! ## Engine primitives acting on the bound sound -/

/-- `ma_sound_stop(&state.sound)`. -/
def engineStop (s : PlayerState) : PlayerState :=
  { s with sound := s.sound.map (fun snd => { snd with enginePlaying := false }) }

/-- `ma_sound_start(&state.sound)`. -/
def engineStart (s : PlayerState) : PlayerState :=
  { s with sound := s.sound.map (fun snd => { snd with enginePlaying := true }) }

/-- `ma_sound_is_playing(&state.sound)`. -/
def engineIsPlaying (s : PlayerState) : Bool :=
  match s.sound with
  | some snd => snd.enginePlaying
  | none => false

/-- `ma_sound_set_volume(&state.sound, v)`. -/
def engineSetVolume (s : PlayerState) (v : Rat) : PlayerState :=
  { s with sound := s.sound.map (fun snd => { snd with volume := v }) }

/-! ## Session operations (main.cpp:451-708) -/

/-- `StopCurrentSound` (main.cpp:514-524). -/
def StopCurrentSound (s : PlayerState) : PlayerState :=
  let s := if sound_initialized s then engineStop s else s
  { s with is_playing := false }

/-- `UninitializeCurrentSound` (main.cpp:526-532). -/
def UninitializeCurrentSound (s : PlayerState) : PlayerState :=
  if sound_initialized s then { s with sound := none } else s

/-- The index computation of `HandleNextTrack` (main.cpp:606):
`(state.current_track_index + 1) % state.track_list.size()`, with the
C++ `int` converted to `size_t` (reduction mod 2^64) before `%`. -/
def nextIndexCpp (i : Int) (n : Nat) : Int :=
  ((((i + 1) % (2 ^ 64 : Int)).toNat % n : Nat) : Int)

/-- `InitializeAndPlaySound` (main.cpp:534-568).  Releases any bound
sound first, validates the index, then asks the engine (`loadOk`) to
open the file; on success binds the sound, records the index, applies
the stored volume, registers the end callback and starts output iff
`start_playing`. -/
def InitializeAndPlaySound (loadOk : String → Bool) (s : PlayerState)
    (track_index_to_play : Int) (start_playing : Bool) : Bool × PlayerState :=
  let s := UninitializeCurrentSound s
  if s.track_list.isEmpty ∨ track_index_to_play < 0 ∨
      (s.track_list.length : Int) ≤ track_index_to_play then
    (false, { s with is_playing := false })
  else
    let filepath := s.track_list.getD track_index_to_play.toNat ""
    if loadOk filepath then
      let s := { s with sound := some { track := filepath, enginePlaying := false, volume := 1 } }
      let s := { s with current_track_index := track_index_to_play }
      let s := engineSetVolume s s.volume
      if start_playing then
        let s := engineStart s
        (true, { s with is_playing := true })
      else
        (true, { s with is_playing := false })
    else
      (false, { s with sound := none, is_playing := false })

/-- `HandlePlayPause` (main.cpp:570-598). -/
def HandlePlayPause (loadOk : String → Bool) (s : PlayerState) : PlayerState :=
  if s.track_list.isEmpty then s
  else if s.current_track_index < 0 ∨
      (s.track_list.length : Int) ≤ s.current_track_index then s
  else if s.is_playing then
    let s := if sound_initialized s then engineStop s else s
    { s with is_playing := false }
  else if sound_initialized s && !engineIsPlaying s then
    let s := engineStart s
    { s with is_playing := true }
  else
    (InitializeAndPlaySound loadOk s s.current_track_index true).2

/-- `HandleNextTrack` (main.cpp:600-617). -/
def HandleNextTrack (loadOk : String → Bool) (s : PlayerState) : PlayerState :=
  if s.track_list.isEmpty then s
  else
    let next_track_index := nextIndexCpp s.current_track_index s.track_list.length
    let was_playing := s.is_playing
    (InitializeAndPlaySound loadOk s next_track_index was_playing).2

/-- `HandleVolumeChange` (main.cpp:619-628). -/
def HandleVolumeChange (s : PlayerState) (new_volume : Rat) : PlayerState :=
  let s := { s with volume := new_volume }
  if sound_initialized s then engineSetVolume s s.volume else s

/-- `TriggerLoadMusicFilesAsync` (main.cpp:451-476).  Launching the
`std::async` scan is modelled by the `is_loading_music` flag alone (the
scan result arrives as an argument of `ProcessAsyncMusicLoadCompletion`). -/
def TriggerLoadMusicFilesAsync (s : PlayerState) (is_initial_load : Bool) : PlayerState :=
  if s.is_loading_music then s
  else
    let s := { s with is_loading_music := true }
    if is_initial_load then s
    else
      let s := { s with was_playing_before_async_load := s.is_playing }
      let s :=
        if ¬ s.track_list.isEmpty ∧ 0 ≤ s.current_track_index ∧
            s.current_track_index < (s.track_list.length : Int) then
          { s with playing_song_before_async_load :=
              s.track_list.getD s.current_track_index.toNat "" }
        else
          { s with playing_song_before_async_load := "" }
      let s :=
        if sound_initialized s then
          let s := engineStop s
          { s with sound := none }
        else s
      { s with is_playing := false }

/-- `ProcessAsyncMusicLoadCompletion` (main.cpp:478-512).  `ready` is the
`wait_for(0s) == ready` poll; `scan_result` the value delivered by
`future.get()` (an exception in `get` is delivered as `[]`, matching the
`catch` that clears the list). -/
def ProcessAsyncMusicLoadCompletion (loadOk : String → Bool) (s : PlayerState)
    (ready : Bool) (scan_result : List String) : PlayerState :=
  if s.is_loading_music && ready then
    let s := { s with track_list := scan_result }
    let s := { s with current_track_index := 0, is_playing := false }
    let s :=
      if s.was_playing_before_async_load && !s.playing_song_before_async_load.isEmpty then
        match s.track_list.findIdx? (fun t => t = s.playing_song_before_async_load) with
        | some new_index => (InitializeAndPlaySound loadOk s (new_index : Int) true).2
        | none => s
      else s
    { s with was_playing_before_async_load := false,
             playing_song_before_async_load := "",
             is_loading_music := false }
  else s

/-- `ProcessAudioEvents` (main.cpp:695-708): drain the atomic
`track_ended_flag` with `exchange(false)`; advance only when playing. -/
def ProcessAudioEvents (loadOk : String → Bool) (s : PlayerState) : PlayerState :=
  let prev := s.track_ended_flag
  let s := { s with track_ended_flag := false }
  if prev then
    if s.is_playing then HandleNextTrack loadOk s else s
  else s

/-- The defensive index clamp in `RenderUI` (main.cpp:657-663). -/
def RenderUIClampIndex (s : PlayerState) : PlayerState :=
  if s.track_list.isEmpty then s
  else if s.current_track_index < 0 ∨
      (s.track_list.length : Int) ≤ s.current_track_index then
    let s := { s with current_track_index := 0 }
    let s := if s.is_playing then StopCurrentSound s else s
    UninitializeCurrentSound s
  else s

/-- `sound_end_callback` (main.cpp:307-314) raising the atomic flag from
the engine thread; the engine's cursor has stopped at end of track. -/
def sound_end_callback (s : PlayerState) : PlayerState :=
  { s with track_ended_flag := true,
           sound := s.sound.map (fun snd => { snd with enginePlaying := false }) }

/-! ## Reachability: the operations the control loop can perform -/

/-- One control-loop-visible operation on the session. -/
inductive Op where
  | playPause
  | nextTrack
  | volumeChange (v : Rat)
  | refreshRequest
  | refreshComplete (ready : Bool) (scan_result : List String)
  | audioTick
  | trackEndSignal
  | renderTick

/-- Apply one operation (the engine outcome oracle may differ per step). -/
def applyOp (loadOk : String → Bool) (op : Op) (s : PlayerState) : PlayerState :=
  match op with
  | Op.playPause => HandlePlayPause loadOk s
  | Op.nextTrack => HandleNextTrack loadOk s
  | Op.volumeChange v => HandleVolumeChange s v
  | Op.refreshRequest => TriggerLoadMusicFilesAsync s false
  | Op.refreshComplete ready r => ProcessAsyncMusicLoadCompletion loadOk s ready r
  | Op.audioTick => ProcessAudioEvents loadOk s
  | Op.trackEndSignal => sound_end_callback s
  | Op.renderTick => RenderUIClampIndex s

/-- The state right after `main` starts the initial scan (main.cpp:743). -/
def initState : PlayerState :=
  TriggerLoadMusicFilesAsync initPlayerState true

/-- States the session can reach from startup. -/
inductive Reachable : PlayerState → Prop where
  | init : Reachable initState
  | step (loadOk : String → Bool) (op : Op) {s : PlayerState} :
      Reachable s → Reachable (applyOp loadOk op s)

/-! ## Basic lemmas about the session operations -/

theorem UninitializeCurrentSound_eq (s : PlayerState) :
    UninitializeCurrentSound s = { s with sound := none } := by
  cases s with
  | mk snd tl idx ip v lm wp ps fl =>
    cases snd <;> simp [UninitializeCurrentSound, sound_initialized]

/-- Full characterization of `InitializeAndPlaySound`: the prior sound is
released unconditionally; an invalid index or rejected file yields
`false` with no sound bound and `is_playing = false`; success binds the
requested track at the stored volume, records the index and starts
output iff requested. -/
theorem InitializeAndPlaySound_spec (loadOk : String → Bool) (s : PlayerState)
    (idx : Int) (b : Bool) :
    InitializeAndPlaySound loadOk s idx b =
      if s.track_list.isEmpty ∨ idx < 0 ∨ (s.track_list.length : Int) ≤ idx then
        (false, { s with sound := none, is_playing := false })
      else if loadOk (s.track_list.getD idx.toNat "") then
        (true, { s with
                  sound := some { track := s.track_list.getD idx.toNat "",
                                  enginePlaying := b, volume := s.volume },
                  current_track_index := idx,
                  is_playing := b })
      else
        (false, { s with sound := none, is_playing := false }) := by
  rw [InitializeAndPlaySound, UninitializeCurrentSound_eq]
  cases b <;> split_ifs <;> simp_all [engineSetVolume, engineStart]

/-- The core safety invariant: the status is never Playing while no
ActiveSound is bound. -/
def SoundInv (s : PlayerState) : Prop :=
  s.is_playing = true → sound_initialized s = true

theorem soundInv_iaps (loadOk : String → Bool) (s : PlayerState)
    (idx : Int) (b : Bool) :
    SoundInv (InitializeAndPlaySound loadOk s idx b).2 := by
  rw [InitializeAndPlaySound_spec]
  unfold SoundInv sound_initialized
  split
  · simp
  · split <;> simp

theorem soundInv_playPause (loadOk : String → Bool) (s : PlayerState)
    (h : SoundInv s) : SoundInv (HandlePlayPause loadOk s) := by
  unfold HandlePlayPause
  split
  · exact h
  · split
    · exact h
    · split
      · intro hp; simp at hp
      · split
        · rename_i hb
          intro _
          simp only [Bool.and_eq_true, sound_initialized] at hb
          obtain ⟨snd, hsnd⟩ := Option.isSome_iff_exists.mp hb.1
          simp [sound_initialized, engineStart, hsnd]
        · exact soundInv_iaps loadOk _ _ _

theorem soundInv_next (loadOk : String → Bool) (s : PlayerState)
    (h : SoundInv s) : SoundInv (HandleNextTrack loadOk s) := by
  unfold HandleNextTrack
  split
  · exact h
  · exact soundInv_iaps loadOk _ _ _

/-- `HandleVolumeChange` only stores the volume and pushes it to the
bound sound. -/
theorem HandleVolumeChange_spec (s : PlayerState) (v : Rat) :
    HandleVolumeChange s v =
      { s with volume := v,
               sound := s.sound.map (fun snd => { snd with volume := v }) } := by
  cases s with
  | mk snd tl idx ip vol lm wp ps fl =>
    cases snd <;> simp [HandleVolumeChange, engineSetVolume, sound_initialized]

/-- A refresh request while a scan is in flight leaves the state
untouched (main.cpp:452-455). -/
theorem TriggerLoadMusicFilesAsync_noop (s : PlayerState) (b : Bool)
    (h : s.is_loading_music = true) : TriggerLoadMusicFilesAsync s b = s := by
  unfold TriggerLoadMusicFilesAsync
  simp [h]

/-- The initial load only raises the loading flag. -/
theorem TriggerLoadMusicFilesAsync_initial (s : PlayerState)
    (h : s.is_loading_music = false) :
    TriggerLoadMusicFilesAsync s true = { s with is_loading_music := true } := by
  unfold TriggerLoadMusicFilesAsync
  simp [h]

/-- A user refresh request: capture the playing flag and the current
track, release the sound, set Stopped, mark scanning. -/
theorem TriggerLoadMusicFilesAsync_refresh (s : PlayerState)
    (h : s.is_loading_music = false) :
    TriggerLoadMusicFilesAsync s false =
      { s with is_loading_music := true,
               was_playing_before_async_load := s.is_playing,
               playing_song_before_async_load :=
                 if ¬ s.track_list.isEmpty ∧ 0 ≤ s.current_track_index ∧
                     s.current_track_index < (s.track_list.length : Int) then
                   s.track_list.getD s.current_track_index.toNat ""
                 else "",
               sound := none,
               is_playing := false } := by
  cases s with
  | mk snd tl idx ip vol lm wp ps fl =>
    cases lm
    · cases snd <;>
        simp [TriggerLoadMusicFilesAsync, engineStop, sound_initialized,
          apply_ite PlayerState.sound, apply_ite PlayerState.track_list,
          apply_ite PlayerState.current_track_index, apply_ite PlayerState.is_playing,
          apply_ite PlayerState.volume, apply_ite PlayerState.is_loading_music,
          apply_ite PlayerState.was_playing_before_async_load,
          apply_ite PlayerState.playing_song_before_async_load,
          apply_ite PlayerState.track_ended_flag,
          apply_ite Option.isSome]
    · simp at h

theorem soundInv_volume (s : PlayerState) (v : Rat)
    (h : SoundInv s) : SoundInv (HandleVolumeChange s v) := by
  rw [HandleVolumeChange_spec]
  intro hp
  have hs := h hp
  unfold sound_initialized at hs ⊢
  cases hsnd : s.sound <;> simp_all

theorem soundInv_trigger (s : PlayerState) (b : Bool)
    (h : SoundInv s) : SoundInv (TriggerLoadMusicFilesAsync s b) := by
  cases hl : s.is_loading_music
  · cases b
    · rw [TriggerLoadMusicFilesAsync_refresh s hl]
      intro hp; simp at hp
    · rw [TriggerLoadMusicFilesAsync_initial s hl]
      intro hp; exact h hp
  · rw [TriggerLoadMusicFilesAsync_noop s b hl]
    exact h

theorem soundInv_completion (loadOk : String → Bool) (s : PlayerState)
    (ready : Bool) (r : List String)
    (h : SoundInv s) : SoundInv (ProcessAsyncMusicLoadCompletion loadOk s ready r) := by
  unfold ProcessAsyncMusicLoadCompletion
  dsimp only
  split
  · split
    · split
      · intro hp
        exact soundInv_iaps loadOk _ _ _ hp
      · intro hp; simp at hp
    · intro hp; simp at hp
  · exact h

theorem soundInv_audio (loadOk : String → Bool) (s : PlayerState)
    (h : SoundInv s) : SoundInv (ProcessAudioEvents loadOk s) := by
  unfold ProcessAudioEvents
  dsimp only
  split
  · split
    · exact soundInv_next loadOk _ h
    · intro hp; exact h hp
  · intro hp; exact h hp

theorem soundInv_callback (s : PlayerState)
    (h : SoundInv s) : SoundInv (sound_end_callback s) := by
  intro hp
  have hs := h hp
  unfold sound_initialized at hs ⊢
  unfold sound_end_callback
  cases hsnd : s.sound <;> simp_all

theorem soundInv_render (s : PlayerState)
    (h : SoundInv s) : SoundInv (RenderUIClampIndex s) := by
  unfold RenderUIClampIndex
  dsimp only
  split
  · exact h
  · split
    · rw [UninitializeCurrentSound_eq]
      split
      · intro hp; simp [StopCurrentSound] at hp
      · intro hp; simp_all
    · exact h

theorem soundInv_applyOp (loadOk : String → Bool) (op : Op) (s : PlayerState)
    (h : SoundInv s) : SoundInv (applyOp loadOk op s) := by
  cases op with
  | playPause => exact soundInv_playPause loadOk s h
  | nextTrack => exact soundInv_next loadOk s h
  | volumeChange v => exact soundInv_volume s v h
  | refreshRequest => exact soundInv_trigger s false h
  | refreshComplete ready r => exact soundInv_completion loadOk s ready r h
  | audioTick => exact soundInv_audio loadOk s h
  | trackEndSignal => exact soundInv_callback s h
  | renderTick => exact soundInv_render s h

theorem soundInv_initState : SoundInv initState := by
  intro hp
  simp [initState, TriggerLoadMusicFilesAsync, initPlayerState] at hp

theorem soundInv_reachable (s : PlayerState) (h : Reachable s) : SoundInv s := by
  induction h with
  | init => exact soundInv_initState
  | step loadOk op hs ih => exact soundInv_applyOp loadOk op _ ih

/-- `HandleNextTrack` on a non-empty catalog: the computed next index is
always in range, so the outcome is decided by the engine's answer on the
next track's path. -/
theorem HandleNextTrack_spec (loadOk : String → Bool) (s : PlayerState)
    (he : s.track_list.isEmpty = false) :
    HandleNextTrack loadOk s =
      if loadOk (s.track_list.getD
          (nextIndexCpp s.current_track_index s.track_list.length).toNat "") then
        { s with
            sound := some { track := s.track_list.getD
                              (nextIndexCpp s.current_track_index s.track_list.length).toNat "",
                            enginePlaying := s.is_playing, volume := s.volume },
            current_track_index := nextIndexCpp s.current_track_index s.track_list.length,
            is_playing := s.is_playing }
      else
        { s with sound := none, is_playing := false } := by
  have hn : 0 < s.track_list.length := by
    cases hl : s.track_list
    · rw [hl] at he; simp at he
    · simp
  have hnext0 : 0 ≤ nextIndexCpp s.current_track_index s.track_list.length :=
    Int.ofNat_nonneg _
  have hnextlt : nextIndexCpp s.current_track_index s.track_list.length <
      (s.track_list.length : Int) := by
    unfold nextIndexCpp
    exact_mod_cast Nat.mod_lt _ hn
  unfold HandleNextTrack
  rw [if_neg (by simp [he])]
  dsimp only
  rw [InitializeAndPlaySound_spec]
  rw [if_neg (by simp [he]; omega)]
  split <;> rfl

/-- `HandleNextTrack` never touches the track-ended flag. -/
theorem HandleNextTrack_flag (loadOk : String → Bool) (s : PlayerState) :
    (HandleNextTrack loadOk s).track_ended_flag = s.track_ended_flag := by
  unfold HandleNextTrack
  dsimp only
  split
  · rfl
  · rw [InitializeAndPlaySound_spec]
    split_ifs <;> rfl

/-- `ProcessAsyncMusicLoadCompletion` on a finished scan. -/
theorem ProcessAsyncMusicLoadCompletion_spec (loadOk : String → Bool)
    (s : PlayerState) (r : List String) (h : s.is_loading_music = true) :
    ProcessAsyncMusicLoadCompletion loadOk s true r =
      (let s1 : PlayerState :=
        { s with track_list := r, current_track_index := 0, is_playing := false }
       let s2 :=
        if (s.was_playing_before_async_load && !s.playing_song_before_async_load.isEmpty) = true then
          match r.findIdx? (fun t => t = s.playing_song_before_async_load) with
          | some new_index => (InitializeAndPlaySound loadOk s1 (new_index : Int) true).2
          | none => s1
        else s1
       { s2 with was_playing_before_async_load := false,
                 playing_song_before_async_load := "",
                 is_loading_music := false }) := by
  unfold ProcessAsyncMusicLoadCompletion
  rw [if_pos (by simp [h])]

/-- The scan loop keeps exactly the playable entries, in order. -/
theorem scanLoop_eq_filter (l : List DirEntry) :
    scanLoop l = (l.filter isPlayableEntry).map DirEntry.path := by
  induction l with
  | nil => rfl
  | cons e rest ih =>
    by_cases hr : e.is_regular_file = true
    · by_cases hx : asciiLower (pathExtension e.path) = ".mp3" ∨
          asciiLower (pathExtension e.path) = ".wav"
      · simp [scanLoop, isPlayableEntry, hr, hx, ih]
      · simp [scanLoop, isPlayableEntry, hr, hx, ih]
    · simp [scanLoop, isPlayableEntry, hr, ih]

/-! ## Concrete states used as witnesses and counterexamples -/

/-- A Stopped session holding the one-track catalog `["a"]`. -/
def stoppedOneTrack : PlayerState where
  sound := none
  track_list := ["a"]
  current_track_index := 0
  is_playing := false
  volume := 1
  is_loading_music := false
  was_playing_before_async_load := false
  playing_song_before_async_load := ""
  track_ended_flag := false

/-- A session scanning after a refresh requested while Paused on track
`"y"` of the catalog `["x", "y", "z"]` (so the capture recorded
`was_playing = false` and the track `"y"`). -/
def pausedRefreshing : PlayerState where
  sound := none
  track_list := ["x", "y", "z"]
  current_track_index := 1
  is_playing := false
  volume := 1
  is_loading_music := true
  was_playing_before_async_load := false
  playing_song_before_async_load := "y"
  track_ended_flag := false

/-- A session with an empty catalog but a bound (stale) sound: reachable
by pressing Play while a refresh scan is running (only the Refresh
button is disabled during a scan) and letting the scan complete with an
empty result — the completion path clears `is_playing` but never
releases a sound bound after the request. -/
def pausedEmpty : PlayerState where
  sound := some { track := "a", enginePlaying := true, volume := 1 }
  track_list := []
  current_track_index := 0
  is_playing := false
  volume := 1
  is_loading_music := false
  was_playing_before_async_load := false
  playing_song_before_async_load := ""
  track_ended_flag := false

/-- `pausedEmpty` is reachable: initial scan delivers `["a"]`, the user
requests a refresh, presses Play while it scans, and the scan completes
empty. -/
theorem pausedEmpty_reachable : Reachable pausedEmpty := by
  have h0 := Reachable.init
  have h1 := Reachable.step (fun _ => true) (Op.refreshComplete true ["a"]) h0
  have h2 := Reachable.step (fun _ => true) Op.refreshRequest h1
  have h3 := Reachable.step (fun _ => true) Op.playPause h2
  have h4 := Reachable.step (fun _ => true) (Op.refreshComplete true []) h3
  have he : applyOp (fun _ => true) (Op.refreshComplete true [])
      (applyOp (fun _ => true) Op.playPause
        (applyOp (fun _ => true) Op.refreshRequest
          (applyOp (fun _ => true) (Op.refreshComplete true ["a"]) initState))) =
      pausedEmpty := by decide
  rw [he] at h4
  exact h4

/-! ## Claim theorems -/

/-- C1: in every reachable session state (hence after every operation:
play/pause toggle, next, advance-on-track-end, volume change, refresh
request, refresh completion, and also the end callback and the render
clamp), an ActiveSound is bound if and only if the status is Playing or
Paused; the status is never Playing with no ActiveSound bound, and
Stopped always means no ActiveSound is bound. -/
theorem c1_activeSound_iff_playing_or_paused (s : PlayerState) (h : Reachable s) :
    (sound_initialized s = true ↔
      (status s = PlaybackStatus.Playing ∨ status s = PlaybackStatus.Paused)) ∧
    ¬ (status s = PlaybackStatus.Playing ∧ sound_initialized s = false) ∧
    (status s = PlaybackStatus.Stopped → sound_initialized s = false) := by
  have hinv := soundInv_reachable s h
  unfold SoundInv at hinv
  unfold status
  cases hp : s.is_playing
  · cases hb : sound_initialized s <;> simp [hp, hb]
  · simp [hp, hinv hp]

/-- Witness for C1 at the startup state. -/
theorem c1_activeSound_iff_playing_or_paused_witness :
    (sound_initialized initState = true ↔
      (status initState = PlaybackStatus.Playing ∨
       status initState = PlaybackStatus.Paused)) ∧
    ¬ (status initState = PlaybackStatus.Playing ∧ sound_initialized initState = false) ∧
    (status initState = PlaybackStatus.Stopped → sound_initialized initState = false) :=
  c1_activeSound_iff_playing_or_paused initState Reachable.init

/-- C2: for a catalog of length `n` and current index `i ∈ [0, n)` (the
bound `i + 1 < 2^64` reflects the `int`-to-`size_t` conversion at the
`%` and holds for every value a C++ `int` can take), the next index is
`(i + 1) % n`; for `n = 1` it is `i` again (same track reloaded); and it
is always a valid index, so there is no terminal end-of-playlist state. -/
theorem c2_advance_index_mod (i n : Nat) (h1 : i < n) (h2 : i + 1 < 2 ^ 64) :
    nextIndexCpp (i : Int) n = (((i + 1) % n : Nat) : Int) ∧
    (n = 1 → nextIndexCpp (i : Int) n = (i : Int)) ∧
    nextIndexCpp (i : Int) n < (n : Int) := by
  have hn : 0 < n := Nat.lt_of_le_of_lt (Nat.zero_le i) h1
  have h2i : (i : Int) + 1 < (2 : Int) ^ 64 := by exact_mod_cast h2
  have e1 : ((i : Int) + 1) % ((2 : Int) ^ 64) = (i : Int) + 1 :=
    Int.emod_eq_of_lt (by positivity) h2i
  have e2 : (((i : Int) + 1) % ((2 : Int) ^ 64)).toNat = i + 1 := by
    rw [e1]; omega
  refine ⟨?_, ?_, ?_⟩
  · unfold nextIndexCpp
    rw [e2]
  · intro hone
    have hi0 : i = 0 := by omega
    subst hone hi0
    unfold nextIndexCpp
    rw [e2]
  · unfold nextIndexCpp
    rw [e2]
    exact_mod_cast Nat.mod_lt _ hn

/-- Witness for C2 at `i = 2`, `n = 3`. -/
theorem c2_advance_index_mod_witness :
    nextIndexCpp ((2 : Nat) : Int) 3 = (((2 + 1) % 3 : Nat) : Int) ∧
    (3 = 1 → nextIndexCpp ((2 : Nat) : Int) 3 = ((2 : Nat) : Int)) ∧
    nextIndexCpp ((2 : Nat) : Int) 3 < ((3 : Nat) : Int) :=
  c2_advance_index_mod 2 3 (by norm_num) (by norm_num)

/-- C5: each control tick drains the track-ended flag exactly once (the
flag is false afterwards); if it was set while Playing the session
advances (on the drained state); if it was set while not Playing the
event is discarded with no other state change; if it was not set the
tick is a no-op. -/
theorem c5_track_end_drain (loadOk : String → Bool) (s : PlayerState) :
    (ProcessAudioEvents loadOk s).track_ended_flag = false ∧
    (s.track_ended_flag = true → s.is_playing = true →
      ProcessAudioEvents loadOk s =
        HandleNextTrack loadOk { s with track_ended_flag := false }) ∧
    (s.track_ended_flag = true → s.is_playing = false →
      ProcessAudioEvents loadOk s = { s with track_ended_flag := false }) ∧
    (s.track_ended_flag = false → ProcessAudioEvents loadOk s = s) := by
  refine ⟨?_, ?_, ?_, ?_⟩
  · unfold ProcessAudioEvents
    dsimp only
    cases hf : s.track_ended_flag
    · simp
    · cases hp : s.is_playing
      · simp [hp]
      · simp [hp, HandleNextTrack_flag]
  · intro hf hp
    unfold ProcessAudioEvents
    dsimp only
    simp [hf, hp]
  · intro hf hp
    unfold ProcessAudioEvents
    dsimp only
    simp [hf, hp]
  · intro hf
    unfold ProcessAudioEvents
    dsimp only
    cases s
    simp_all

/-- Witness for C5: a set flag while Paused is discarded. -/
theorem c5_track_end_drain_witness :
    (ProcessAudioEvents (fun _ => true)
        { initPlayerState with track_ended_flag := true }).track_ended_flag = false ∧
    ProcessAudioEvents (fun _ => true) { initPlayerState with track_ended_flag := true } =
      { initPlayerState with track_ended_flag := false } :=
  ⟨(c5_track_end_drain (fun _ => true) { initPlayerState with track_ended_flag := true }).1,
   (c5_track_end_drain (fun _ => true)
      { initPlayerState with track_ended_flag := true }).2.2.1 (by decide) (by decide)⟩

/-- C6: if the engine rejects the file at a valid index, the attempted
transition aborts with Stopped and no ActiveSound bound, and the catalog
is unchanged by the failure — the failing track is not removed. -/
theorem c6_load_failure_stops (loadOk : String → Bool) (s : PlayerState)
    (idx : Int) (b : Bool)
    (h1 : s.track_list.isEmpty = false) (h2 : 0 ≤ idx)
    (h3 : idx < (s.track_list.length : Int))
    (h4 : loadOk (s.track_list.getD idx.toNat "") = false) :
    (InitializeAndPlaySound loadOk s idx b).1 = false ∧
    (InitializeAndPlaySound loadOk s idx b).2.sound = none ∧
    (InitializeAndPlaySound loadOk s idx b).2.is_playing = false ∧
    status (InitializeAndPlaySound loadOk s idx b).2 = PlaybackStatus.Stopped ∧
    (InitializeAndPlaySound loadOk s idx b).2.track_list = s.track_list := by
  rw [InitializeAndPlaySound_spec]
  rw [if_neg (by simp only [h1]; push_neg; constructor <;> [simp; omega])]
  rw [if_neg (by simp only [h4]; simp)]
  simp [status, sound_initialized]

/-- Witness for C6: a one-track catalog whose file the engine rejects. -/
theorem c6_load_failure_stops_witness :
    (InitializeAndPlaySound (fun _ => false) stoppedOneTrack 0 true).1 = false ∧
    (InitializeAndPlaySound (fun _ => false) stoppedOneTrack 0 true).2.sound = none ∧
    (InitializeAndPlaySound (fun _ => false) stoppedOneTrack 0 true).2.is_playing = false ∧
    status (InitializeAndPlaySound (fun _ => false) stoppedOneTrack 0 true).2 =
      PlaybackStatus.Stopped ∧
    (InitializeAndPlaySound (fun _ => false) stoppedOneTrack 0 true).2.track_list =
      stoppedOneTrack.track_list :=
  c6_load_failure_stops (fun _ => false) stoppedOneTrack 0 true
    (by decide) (by decide) (by decide) (by decide)

/-- C7: a refresh request while a scan is already in flight changes no
state at all (and, since launching a scan is modelled by the loading
flag it leaves untouched, queues nothing). -/
theorem c7_refresh_request_noop (s : PlayerState) (is_initial_load : Bool)
    (h : s.is_loading_music = true) :
    TriggerLoadMusicFilesAsync s is_initial_load = s :=
  TriggerLoadMusicFilesAsync_noop s is_initial_load h

/-- Witness for C7: a second request right after the startup scan began. -/
theorem c7_refresh_request_noop_witness :
    TriggerLoadMusicFilesAsync initState false = initState :=
  c7_refresh_request_noop initState false (by decide)

/-- C3 counterexample, refuting both clauses of the claim.  (i) With the
one-track catalog `["a"]` and a Stopped session, Advance (Next) binds
the track but does not start it — the session ends up Paused, not
Playing.  (ii) At the reachable session `pausedEmpty` (empty catalog
with a stale bound sound), Advance on the empty catalog does not enter
Stopped either: it returns early and the session stays Paused. -/
theorem c3_counterexample_next_from_stopped :
    ¬ (status (HandleNextTrack (fun _ => true) stoppedOneTrack) =
        PlaybackStatus.Playing) ∧
    Reachable pausedEmpty ∧
    ¬ (status (HandleNextTrack (fun _ => true) pausedEmpty) =
        PlaybackStatus.Stopped) :=
  ⟨by decide, pausedEmpty_reachable, by decide⟩

/-- C3 (amended): on an empty catalog Advance returns early and leaves
the state exactly unchanged — it does not enter Stopped (at the
reachable `pausedEmpty` it stays Paused).  On a non-empty catalog
Advance releases the current ActiveSound and loads+binds the track at
`(current + 1) mod length`; it starts it and enters Playing only when
the session was Playing (on engine failure it falls to Stopped with no
sound, the index keeping its pre-call value); when the session was
Paused or Stopped the new track is bound but not started, leaving the
session Paused. -/
theorem c3_advance_amended (loadOk : String → Bool) (s : PlayerState) :
    (s.track_list.isEmpty = true → HandleNextTrack loadOk s = s) ∧
    (s.track_list.isEmpty = false →
      (loadOk (s.track_list.getD
          (nextIndexCpp s.current_track_index s.track_list.length).toNat "") = true →
        (HandleNextTrack loadOk s).sound =
          some { track := s.track_list.getD
                    (nextIndexCpp s.current_track_index s.track_list.length).toNat "",
                 enginePlaying := s.is_playing, volume := s.volume } ∧
        (HandleNextTrack loadOk s).current_track_index =
          nextIndexCpp s.current_track_index s.track_list.length ∧
        (HandleNextTrack loadOk s).is_playing = s.is_playing ∧
        (s.is_playing = true → status (HandleNextTrack loadOk s) = PlaybackStatus.Playing) ∧
        (s.is_playing = false → status (HandleNextTrack loadOk s) = PlaybackStatus.Paused)) ∧
      (loadOk (s.track_list.getD
          (nextIndexCpp s.current_track_index s.track_list.length).toNat "") = false →
        (HandleNextTrack loadOk s).sound = none ∧
        (HandleNextTrack loadOk s).is_playing = false ∧
        status (HandleNextTrack loadOk s) = PlaybackStatus.Stopped ∧
        (HandleNextTrack loadOk s).current_track_index = s.current_track_index ∧
        (HandleNextTrack loadOk s).track_list = s.track_list)) := by
  constructor
  · intro he
    unfold HandleNextTrack
    simp [he]
  · intro he
    rw [HandleNextTrack_spec loadOk s he]
    constructor
    · intro hl
      rw [if_pos hl]
      cases hp : s.is_playing <;> simp [status, sound_initialized, hp]
    · intro hl
      rw [if_neg (by simp only [hl]; simp)]
      simp [status, sound_initialized]

/-- Witness for C3 (amended): Next from the Stopped one-track session
binds the track without starting it. -/
theorem c3_advance_amended_witness :
    status (HandleNextTrack (fun _ => true) stoppedOneTrack) = PlaybackStatus.Paused :=
  (((c3_advance_amended (fun _ => true) stoppedOneTrack).2 (by decide)).1
    (by decide)).2.2.2.2 (by decide)

/-- C4 counterexample: a refresh requested while Paused on track `"y"`
(so `was_playing` was captured false) completing with scan result
`["x", "y"]`: the captured track exists at position 1 of the new
catalog, yet the code leaves CurrentIndex at 0 — the claim's
"CurrentIndex is set to its new position" fails. -/
theorem c4_counterexample_paused_capture :
    (ProcessAsyncMusicLoadCompletion (fun _ => true) pausedRefreshing true
        ["x", "y"]).current_track_index = 0 ∧
    ¬ ((ProcessAsyncMusicLoadCompletion (fun _ => true) pausedRefreshing true
        ["x", "y"]).current_track_index = 1) := by
  decide

/-- C4 (amended): when a refresh completes, the Catalog is replaced
wholesale by the scan result, CurrentIndex is reset to 0, `is_playing`
cleared and the loading flag dropped.  Only if the session was Playing
at request time and the captured TrackRef occurs in the new Catalog
(exact match, first occurrence `j`) is CurrentIndex moved to `j` and
playback rebound and resumed there (falling to Stopped with
CurrentIndex 0 if the engine rejects the file).  In every other case —
including a Paused capture whose track still exists — CurrentIndex
stays 0 and playback does not resume: whatever sound was bound at
completion time is left untouched, so the session is Stopped when no
sound is bound (the normal case, the request released it) but stays
Paused on a stale sound bound during the scan (Play is not disabled
while scanning). -/
theorem c4_refresh_completion_amended (loadOk : String → Bool) (s : PlayerState)
    (r : List String) (h1 : s.is_loading_music = true) :
    (ProcessAsyncMusicLoadCompletion loadOk s true r).track_list = r ∧
    (ProcessAsyncMusicLoadCompletion loadOk s true r).is_loading_music = false ∧
    ((s.was_playing_before_async_load = false ∨ s.playing_song_before_async_load = "" ∨
        r.findIdx? (fun t => t = s.playing_song_before_async_load) = none) →
      (ProcessAsyncMusicLoadCompletion loadOk s true r).current_track_index = 0 ∧
      (ProcessAsyncMusicLoadCompletion loadOk s true r).is_playing = false ∧
      (ProcessAsyncMusicLoadCompletion loadOk s true r).sound = s.sound ∧
      (s.sound = none →
        status (ProcessAsyncMusicLoadCompletion loadOk s true r) =
          PlaybackStatus.Stopped) ∧
      (∀ snd, s.sound = some snd →
        status (ProcessAsyncMusicLoadCompletion loadOk s true r) =
          PlaybackStatus.Paused)) ∧
    (∀ j, s.was_playing_before_async_load = true →
      s.playing_song_before_async_load ≠ "" →
      r.findIdx? (fun t => t = s.playing_song_before_async_load) = some j →
      (loadOk (r.getD j "") = true →
        (ProcessAsyncMusicLoadCompletion loadOk s true r).current_track_index = (j : Int) ∧
        (ProcessAsyncMusicLoadCompletion loadOk s true r).is_playing = true ∧
        (ProcessAsyncMusicLoadCompletion loadOk s true r).sound =
          some { track := r.getD j "", enginePlaying := true, volume := s.volume } ∧
        status (ProcessAsyncMusicLoadCompletion loadOk s true r) = PlaybackStatus.Playing) ∧
      (loadOk (r.getD j "") = false →
        (ProcessAsyncMusicLoadCompletion loadOk s true r).current_track_index = 0 ∧
        (ProcessAsyncMusicLoadCompletion loadOk s true r).is_playing = false ∧
        (ProcessAsyncMusicLoadCompletion loadOk s true r).sound = none ∧
        status (ProcessAsyncMusicLoadCompletion loadOk s true r) = PlaybackStatus.Stopped)) := by
  rw [ProcessAsyncMusicLoadCompletion_spec loadOk s r h1]
  dsimp only
  refine ⟨?_, ?_, ?_, ?_⟩
  · by_cases hc : (s.was_playing_before_async_load &&
        !s.playing_song_before_async_load.isEmpty) = true
    · rw [if_pos hc]
      split
      · rw [InitializeAndPlaySound_spec]
        split_ifs <;> simp
      · simp
    · rw [if_neg hc]
  · rfl
  · intro hno
    by_cases hc : (s.was_playing_before_async_load &&
        !s.playing_song_before_async_load.isEmpty) = true
    · rw [if_pos hc]
      have hnone : r.findIdx? (fun t => t = s.playing_song_before_async_load) = none := by
        rcases hno with h | h | h
        · simp [h] at hc
        · rw [h] at hc
          rw [show ("" : String).isEmpty = true from rfl] at hc
          simp at hc
        · exact h
      rw [hnone]
      refine ⟨by simp, by simp, by simp,
        fun hn => by simp [status, sound_initialized, hn],
        fun snd hsnd => by simp [status, sound_initialized, hsnd]⟩
    · rw [if_neg hc]
      refine ⟨by simp, by simp, by simp,
        fun hn => by simp [status, sound_initialized, hn],
        fun snd hsnd => by simp [status, sound_initialized, hsnd]⟩
  · intro j hwp hsong hfi
    have hcisEmpty : s.playing_song_before_async_load.isEmpty = false := by
      cases hx : s.playing_song_before_async_load.isEmpty
      · rfl
      · exact absurd ((String.isEmpty_iff _).mp hx) hsong
    rw [if_pos (by simp [hwp, hcisEmpty])]
    rw [hfi]
    dsimp only
    have hlt : j < r.length := (List.findIdx?_eq_some_iff_findIdx_eq.mp hfi).1
    have hre : r.isEmpty = false := by
      cases r
      · simp at hlt
      · simp
    rw [InitializeAndPlaySound_spec]
    dsimp only
    rw [if_neg (by simp [hre]; omega)]
    have hjNat : ((j : Int)).toNat = j := by omega
    rw [hjNat]
    constructor
    · intro hl
      rw [if_pos hl]
      simp [status, sound_initialized]
    · intro hl
      rw [if_neg (by simp only [hl]; simp)]
      simp [status, sound_initialized]

/-- Witness for C4 (amended): the counterexample session — Paused
capture of `"y"`, refresh delivering `["x", "y"]` — keeps its (absent)
sound and stays Stopped at index 0. -/
theorem c4_refresh_completion_amended_witness :
    (ProcessAsyncMusicLoadCompletion (fun _ => true) pausedRefreshing true
        ["x", "y"]).current_track_index = 0 ∧
    (ProcessAsyncMusicLoadCompletion (fun _ => true) pausedRefreshing true
        ["x", "y"]).is_playing = false ∧
    (ProcessAsyncMusicLoadCompletion (fun _ => true) pausedRefreshing true
        ["x", "y"]).sound = pausedRefreshing.sound ∧
    status (ProcessAsyncMusicLoadCompletion (fun _ => true) pausedRefreshing true
        ["x", "y"]) = PlaybackStatus.Stopped := by
  have h := (c4_refresh_completion_amended (fun _ => true) pausedRefreshing ["x", "y"]
    (by decide)).2.2.1 (Or.inl (by decide))
  exact ⟨h.1, h.2.1, h.2.2.1, h.2.2.2.1 (by decide)⟩

/-- C8: unless directory creation itself raises (the hard failure, which
yields `[]`), the scan returns exactly the produced entries that are
regular files with case-insensitive extension `.mp3` or `.wav`, in
order; when enumeration raises after `k` entries the partial results
over those first `k` entries are still returned.  In every case a plain
list is returned, never an error. -/
theorem c8_scan_filters_playable (dirExists createThrows : Bool)
    (listing : List DirEntry) (errAt : Option Nat) :
    (¬ (dirExists = false ∧ createThrows = true) →
      ScanMusicDirectoryWorker dirExists createThrows listing errAt =
        ((match errAt with
          | none => listing
          | some k => listing.take k).filter isPlayableEntry).map DirEntry.path) ∧
    (dirExists = false → createThrows = true →
      ScanMusicDirectoryWorker dirExists createThrows listing errAt = []) := by
  constructor
  · intro h
    unfold ScanMusicDirectoryWorker
    rw [if_neg h]
    dsimp only
    cases errAt <;> simp [scanLoop_eq_filter]
  · intro h1 h2
    unfold ScanMusicDirectoryWorker
    rw [if_pos ⟨h1, h2⟩]

/-- Witness for C8: a directory with a playable `.MP3` (case-insensitive
match), a `.txt` file and a non-regular entry; enumeration raising after
the first two entries still returns the playable prefix. -/
theorem c8_scan_filters_playable_witness :
    ScanMusicDirectoryWorker true false
      [{ path := "./music/a.MP3", is_regular_file := true },
       { path := "./music/b.txt", is_regular_file := true },
       { path := "./music/c.wav", is_regular_file := true }] (some 2) =
      ["./music/a.MP3"] := by
  rw [(c8_scan_filters_playable true false
      [{ path := "./music/a.MP3", is_regular_file := true },
       { path := "./music/b.txt", is_regular_file := true },
       { path := "./music/c.wav", is_regular_file := true }] (some 2)).1
    (by simp)]
  decide

/-- C9: `InitializeAndPlaySound` releases the previously bound
ActiveSound before any validity check, so whenever it fails — invalid
index, empty list, or engine rejection — the prior sound is gone and not
restored while `current_track_index` keeps its pre-call value; hence a
Next whose load failed leaves index and catalog unchanged, and a
repeated Next recomputes the same target index. -/
theorem c9_failed_load_not_atomic (loadOk : String → Bool) (s : PlayerState)
    (idx : Int) (b : Bool) :
    ((InitializeAndPlaySound loadOk s idx b).1 = false →
      (InitializeAndPlaySound loadOk s idx b).2.sound = none ∧
      (InitializeAndPlaySound loadOk s idx b).2.current_track_index =
        s.current_track_index) ∧
    (s.track_list.isEmpty = false →
      loadOk (s.track_list.getD
        (nextIndexCpp s.current_track_index s.track_list.length).toNat "") = false →
      (HandleNextTrack loadOk s).current_track_index = s.current_track_index ∧
      (HandleNextTrack loadOk s).track_list = s.track_list ∧
      nextIndexCpp (HandleNextTrack loadOk s).current_track_index
          (HandleNextTrack loadOk s).track_list.length =
        nextIndexCpp s.current_track_index s.track_list.length) := by
  constructor
  · rw [InitializeAndPlaySound_spec]
    split_ifs <;> intro hf <;> simp_all
  · intro he hl
    rw [HandleNextTrack_spec loadOk s he]
    rw [if_neg (by simp only [hl]; simp)]
    simp

/-- Witness for C9: a failed Next on the one-track session keeps index 0
and the catalog, so the retried Next targets the same track. -/
theorem c9_failed_load_not_atomic_witness :
    (HandleNextTrack (fun _ => false) stoppedOneTrack).current_track_index =
      stoppedOneTrack.current_track_index ∧
    (HandleNextTrack (fun _ => false) stoppedOneTrack).track_list =
      stoppedOneTrack.track_list ∧
    nextIndexCpp (HandleNextTrack (fun _ => false) stoppedOneTrack).current_track_index
        (HandleNextTrack (fun _ => false) stoppedOneTrack).track_list.length =
      nextIndexCpp stoppedOneTrack.current_track_index
        stoppedOneTrack.track_list.length :=
  (c9_failed_load_not_atomic (fun _ => false) stoppedOneTrack 0 true).2
    (by decide) (by decide)

/-- C10: the startup scan captures nothing, so whatever list it
delivers, the session after the initial completion is Stopped with
CurrentIndex 0, no ActiveSound bound, and the catalog replaced by the
scan result — playback never starts on its own. -/
theorem c10_initial_scan_never_plays (loadOk : String → Bool)
    (scan_result : List String) :
    (ProcessAsyncMusicLoadCompletion loadOk initState true scan_result).is_playing = false ∧
    (ProcessAsyncMusicLoadCompletion loadOk initState true scan_result).sound = none ∧
    (ProcessAsyncMusicLoadCompletion loadOk initState true
        scan_result).current_track_index = 0 ∧
    status (ProcessAsyncMusicLoadCompletion loadOk initState true scan_result) =
      PlaybackStatus.Stopped ∧
    (ProcessAsyncMusicLoadCompletion loadOk initState true scan_result).track_list =
      scan_result := by
  rw [ProcessAsyncMusicLoadCompletion_spec loadOk initState scan_result (by decide)]
  dsimp only
  rw [if_neg (by decide)]
  simp [status, sound_initialized, initState, TriggerLoadMusicFilesAsync, initPlayerState]

end AudioPlayer
